import Mathlib

/-!
Verification of the entity facade of the elics ECS runtime
(`src/Entity.ts`), as a shallow embedding.

The repository source provided is the `Entity` class.  Its collaborators
(`ComponentManager`, `QueryManager`, `EntityManager`) are external to the
provided sources, so the parts of their behavior that claims depend on are
modelled from the specification and marked as such in doc comments.

Modelling decisions:
* `BitSet` values (arbitrary-precision bit sets from the `bitset` package)
  are modelled as `Nat`, with `or` = `Nat.lor`, `andNot` = `Nat.ldiff`,
  `and` = `Nat.land` and `isEmpty` = `(· = 0)`.
* A typed-array buffer is a `Buffer`: a version counter (bumped on
  copy-and-replace growth, so a vector view can be compared against the
  buffer object it aliases), a capacity, and the cell contents.  JavaScript
  typed-array semantics are kept: an out-of-bounds read yields `undefined`
  (here `none`) and an out-of-bounds indexed write is silently ignored.
* A zero-copy subarray view is a `View`: the version of the buffer it was
  created from plus its offset and length.
* Errors thrown by the source are the values of `Err`; `Err.message` gives
  the literal message string.  A JavaScript `TypeError` arising from
  indexing `undefined` is `Err.undefinedFieldAccess`.
* Mutation is explicit state passing on a `World`; a thrown error is the
  `some`/`Except.error` component of the result, and the returned world
  carries exactly the mutations performed before the throw.
* Calls to `queryManager.updateEntity(this)` and
  `entityManager.releaseEntityInstance(this)` are recorded in an event
  log; an update event records the bitmask and active flag of the entity
  at the moment of the call, which is what the query subsystem observes.
-/

namespace Elics

/-- Errors raised by `Entity` operations in `src/Entity.ts`. -/
inductive Err where
  | modifyDestroyedEntity
  | componentTypeNotRegistered
  | componentNotFound
  | undefinedFieldAccess
deriving DecidableEq

/-- Literal message strings of the errors, from the `ERRORS` constant and
the inline `throw new Error(...)` calls in `src/Entity.ts`. -/
def Err.message : Err → String
  | .modifyDestroyedEntity => "Cannot modify a destroyed entity"
  | .componentTypeNotRegistered => "Component type not registered"
  | .componentNotFound => "Component not found"
  | .undefinedFieldAccess => "TypeError"

/-- The `ERRORS.ACCESS_DESTROYED_ENTITY` string from `src/Entity.ts`,
declared there but thrown by no operation. -/
def ACCESS_DESTROYED_ENTITY : String := "Cannot access a destroyed entity"

/-- A flat per-field typed-array buffer.  `ver` identifies the concrete
buffer object: growth is copy-and-replace, producing a new object, so it
bumps `ver`.  `cap` is the array length; `data` the cell contents. -/
structure Buffer where
  ver : Nat
  cap : Nat
  data : Nat → Int

/-- A zero-copy subarray view over a buffer, as produced by
`componentData.subarray(offset, offset + length)` in `getVectorView`.
`ver` is the version of the buffer object the view aliases. -/
structure View where
  ver : Nat
  offset : Nat
  len : Nat
deriving DecidableEq

/-- Notifications emitted by the entity to its collaborators.  An
`updateEntity` event records the bitmask and active flag the query
subsystem observes at the moment of the call. -/
inductive Event where
  | updateEntity (bitmask : Nat) (active : Bool)
  | releaseEntityInstance (index : Nat)
deriving DecidableEq

/-- A field descriptor of a registered component schema: the vector
length (`TypedArrayMap[schema[key].type].length`, 1 for scalars) and the
declared default value. -/
structure FieldD where
  len : Nat
  default : List Int

/-- A component class as `Entity.ts` sees it: an identity, an optional
assigned bitmask (`null` when unregistered, modelled `none`), the list of
declared fields and their descriptors. -/
structure CompType where
  id : Nat
  bitmask : Option Nat
  fields : List String
  schema : String → Option FieldD

/-- The entity's own fields from `src/Entity.ts`: `bitmask`, `active`,
`index`. -/
structure EntityState where
  bitmask : Nat
  active : Bool
  index : Nat

/-- The mutable state an `Entity` method can reach: the entity's own
fields, the per-(component, field) data buffers (`componentClass.data`),
the entity's private `vectorViews` cache, and the log of collaborator
notifications. -/
structure World where
  ent : EntityState
  buffers : Nat → String → Option Buffer
  views : Nat → String → Option View
  log : List Event

/-- Pointwise update of a map keyed by component id and field name. -/
def upd2 {α : Type} (g : Nat → String → α) (i : Nat) (k : String) (a : α) :
    Nat → String → α :=
  fun j l => if j = i ∧ l = k then a else g j l

/-- Modelled from the spec: buffer growth inside
`ComponentManager.attachComponentToEntity` (not under the provided
sources).  Growth is copy-and-replace to the needed capacity, preserving
existing slot contents; new cells are zero-initialized; the replacement is
a fresh buffer object, hence the version bump. -/
def grow (b : Buffer) (newCap : Nat) : Buffer :=
  if b.cap < newCap then
    { ver := b.ver + 1, cap := newCap,
      data := fun i => if i < b.cap then b.data i else 0 }
  else b

/-- Sequential in-bounds write of a list of values starting at `offset`. -/
def writeSlots (b : Buffer) (offset : Nat) (vals : List Int) : Buffer :=
  match vals with
  | [] => b
  | v :: rest =>
    let b1 : Buffer :=
      if offset < b.cap then
        { b with data := fun i => if i = offset then v else b.data i }
      else b
    writeSlots b1 (offset + 1) rest

/-- Modelled from the spec: the per-field part of
`ComponentManager.attachComponentToEntity` (not under the provided
sources).  For a declared field, resolves `initialData[field] ?? default`,
grows the buffer first if the entity's slot exceeds capacity, and writes
the resolved value into the slot at `index * len`. -/
def attachField (idx : Nat) (C : CompType) (init : String → Option (List Int))
    (w : World) (f : String) : World :=
  match C.schema f with
  | none => w
  | some d =>
    match w.buffers C.id f with
    | none => w
    | some b =>
      let b1 := grow b ((idx + 1) * d.len)
      let b2 := writeSlots b1 (idx * d.len) ((init f).getD d.default)
      { w with buffers := upd2 w.buffers C.id f (some b2) }

/-- Modelled from the spec: `ComponentManager.attachComponentToEntity`
(not under the provided sources) — for each declared field of the
component, resolve the initial value and write it, growing first when
needed. -/
def attachComponentToEntity (w : World) (idx : Nat) (C : CompType)
    (init : String → Option (List Int)) : World :=
  C.fields.foldl (attachField idx C init) w

/-- `Entity.addComponent` from `src/Entity.ts`: inactive guard, registered
guard, then bitmask `or`, storage attach, query notification. -/
def addComponent (w : World) (C : CompType)
    (init : String → Option (List Int)) : World × Option Err :=
  if !w.ent.active then (w, some .modifyDestroyedEntity)
  else
    match C.bitmask with
    | some m =>
      let w1 : World :=
        { w with ent := { w.ent with bitmask := w.ent.bitmask ||| m } }
      let w2 := attachComponentToEntity w1 w1.ent.index C init
      let w3 : World :=
        { w2 with log :=
            w2.log ++ [Event.updateEntity w2.ent.bitmask w2.ent.active] }
      (w3, none)
    | none => (w, some .componentTypeNotRegistered)

/-- `Entity.removeComponent` from `src/Entity.ts`: inactive guard,
registered guard, then bitmask `andNot` and query notification. -/
def removeComponent (w : World) (C : CompType) : World × Option Err :=
  if !w.ent.active then (w, some .modifyDestroyedEntity)
  else
    match C.bitmask with
    | some m =>
      let w1 : World :=
        { w with ent := { w.ent with bitmask := Nat.ldiff w.ent.bitmask m } }
      let w2 : World :=
        { w1 with log :=
            w1.log ++ [Event.updateEntity w1.ent.bitmask w1.ent.active] }
      (w2, none)
    | none => (w, some .componentNotFound)

/-- `Entity.hasComponent` from `src/Entity.ts`: for a registered class the
non-emptiness of the intersection of the entity bitmask with the class
bitmask; otherwise a thrown error. -/
def hasComponent (w : World) (C : CompType) : Except Err Bool :=
  match C.bitmask with
  | some m => .ok (!(w.ent.bitmask &&& m == 0))
  | none => .error .componentTypeNotRegistered

/-- `Entity.getValue` from `src/Entity.ts`:
`componentClass.data[key]?.[this.index]` — `none` models `undefined`,
whether from a missing field buffer or from an out-of-bounds read. -/
def getValue (w : World) (C : CompType) (f : String) : Option Int :=
  match w.buffers C.id f with
  | none => none
  | some b => if w.ent.index < b.cap then some (b.data w.ent.index) else none

/-- `Entity.setValue` from `src/Entity.ts`:
`componentClass.data[key][this.index] = value`.  A missing field buffer
makes the subscript throw a `TypeError`; an out-of-bounds typed-array
write is silently ignored. -/
def setValue (w : World) (C : CompType) (f : String) (v : Int) :
    World × Option Err :=
  match w.buffers C.id f with
  | none => (w, some .undefinedFieldAccess)
  | some b =>
    let b1 : Buffer :=
      if w.ent.index < b.cap then
        { b with data := fun i => if i = w.ent.index then v else b.data i }
      else b
    ({ w with buffers := upd2 w.buffers C.id f (some b1) }, none)

/-- `Entity.getVectorView` from `src/Entity.ts`: return the cached view
when present; otherwise build a fresh subarray view at
`index * length` from the schema's length, cache it, and return it. -/
def getVectorView (w : World) (C : CompType) (f : String) :
    World × Except Err View :=
  match w.views C.id f with
  | some v => (w, .ok v)
  | none =>
    match C.schema f with
    | none => (w, .error .undefinedFieldAccess)
    | some d =>
      match w.buffers C.id f with
      | none => (w, .error .undefinedFieldAccess)
      | some b =>
        let v : View :=
          { ver := b.ver, offset := w.ent.index * d.len, len := d.len }
        ({ w with views := upd2 w.views C.id f (some v) }, .ok v)

/-- `Entity.destroy` from `src/Entity.ts`: inactive guard, then in source
order `releaseEntityInstance(this)`, `active = false`,
`bitmask = new BitSet()`, `queryManager.updateEntity(this)`. -/
def destroy (w : World) : World × Option Err :=
  if !w.ent.active then (w, some .modifyDestroyedEntity)
  else
    let w1 : World :=
      { w with log := w.log ++ [Event.releaseEntityInstance w.ent.index] }
    let w2 : World := { w1 with ent := { w1.ent with active := false } }
    let w3 : World := { w2 with ent := { w2.ent with bitmask := 0 } }
    let w4 : World :=
      { w3 with log :=
          w3.log ++ [Event.updateEntity w3.ent.bitmask w3.ent.active] }
    (w4, none)

/-- Replace the entity's active flag, leaving everything else unchanged. -/
def setActive (w : World) (b : Bool) : World :=
  { w with ent := { w.ent with active := b } }

/-- Whether an event is a query notification. -/
def isUpdateEv : Event → Bool
  | .updateEntity _ _ => true
  | .releaseEntityInstance _ => false

/-- Whether an event is a pool release. -/
def isReleaseEv : Event → Bool
  | .updateEntity _ _ => false
  | .releaseEntityInstance _ => true

/-- In an event list, some release occurs strictly after some update. -/
def releaseAfterUpdate (evs : List Event) : Prop :=
  ∃ i j : Fin evs.length, (i : Nat) < (j : Nat) ∧
    isUpdateEv (evs.get i) = true ∧ isReleaseEv (evs.get j) = true

instance (evs : List Event) : Decidable (releaseAfterUpdate evs) := by
  unfold releaseAfterUpdate
  infer_instance

/-! Helper lemmas about the bit-set model and the modelled storage attach. -/

theorem ldiff_lor_self (b m : Nat) : Nat.ldiff (b ||| m) m = Nat.ldiff b m := by
  apply Nat.eq_of_testBit_eq
  intro i
  simp only [Nat.testBit_ldiff, Nat.testBit_lor]
  cases b.testBit i <;> cases m.testBit i <;> rfl

theorem ldiff_eq_self_of_land_eq_zero {b m : Nat} (h : b &&& m = 0) :
    Nat.ldiff b m = b := by
  apply Nat.eq_of_testBit_eq
  intro i
  have hz : (b &&& m).testBit i = false := by rw [h]; simp
  rw [Nat.testBit_land] at hz
  rw [Nat.testBit_ldiff]
  cases hb : b.testBit i <;> cases hm : m.testBit i <;> simp_all

theorem attachField_same (idx : Nat) (C : CompType)
    (init : String → Option (List Int)) (w : World) (f : String) :
    (attachField idx C init w f).ent = w.ent ∧
    (attachField idx C init w f).views = w.views ∧
    (attachField idx C init w f).log = w.log := by
  unfold attachField
  cases C.schema f with
  | none => exact ⟨rfl, rfl, rfl⟩
  | some d =>
    cases w.buffers C.id f with
    | none => exact ⟨rfl, rfl, rfl⟩
    | some b => exact ⟨rfl, rfl, rfl⟩

theorem attach_foldl_same (idx : Nat) (C : CompType)
    (init : String → Option (List Int)) :
    ∀ (fs : List String) (w : World),
      (fs.foldl (attachField idx C init) w).ent = w.ent ∧
      (fs.foldl (attachField idx C init) w).views = w.views ∧
      (fs.foldl (attachField idx C init) w).log = w.log := by
  intro fs
  induction fs with
  | nil => intro w; exact ⟨rfl, rfl, rfl⟩
  | cons f rest ih =>
    intro w
    have h1 := attachField_same idx C init w f
    have h2 := ih (attachField idx C init w f)
    simp only [List.foldl_cons]
    exact ⟨h2.1.trans h1.1, h2.2.1.trans h1.2.1, h2.2.2.trans h1.2.2⟩

theorem attach_ent (w : World) (idx : Nat) (C : CompType)
    (init : String → Option (List Int)) :
    (attachComponentToEntity w idx C init).ent = w.ent :=
  (attach_foldl_same idx C init C.fields w).1

theorem attach_views (w : World) (idx : Nat) (C : CompType)
    (init : String → Option (List Int)) :
    (attachComponentToEntity w idx C init).views = w.views :=
  (attach_foldl_same idx C init C.fields w).2.1

theorem attach_log (w : World) (idx : Nat) (C : CompType)
    (init : String → Option (List Int)) :
    (attachComponentToEntity w idx C init).log = w.log :=
  (attach_foldl_same idx C init C.fields w).2.2

theorem addComponent_ok (w : World) (C : CompType) (m : Nat)
    (init : String → Option (List Int))
    (hact : w.ent.active = true) (hm : C.bitmask = some m) :
    (addComponent w C init).2 = none ∧
    (addComponent w C init).1.ent.bitmask = (w.ent.bitmask ||| m) ∧
    (addComponent w C init).1.ent.active = w.ent.active ∧
    (addComponent w C init).1.ent.index = w.ent.index ∧
    (addComponent w C init).1.views = w.views ∧
    (addComponent w C init).1.log =
      w.log ++ [Event.updateEntity (w.ent.bitmask ||| m) w.ent.active] := by
  simp [addComponent, hact, hm, attach_ent, attach_views, attach_log]

theorem addComponent_inactive (u : World) (C : CompType)
    (init : String → Option (List Int)) (h : u.ent.active = false) :
    addComponent u C init = (u, some Err.modifyDestroyedEntity) := by
  simp [addComponent, h]

theorem removeComponent_inactive (u : World) (C : CompType)
    (h : u.ent.active = false) :
    removeComponent u C = (u, some Err.modifyDestroyedEntity) := by
  simp [removeComponent, h]

theorem destroy_inactive (u : World) (h : u.ent.active = false) :
    destroy u = (u, some Err.modifyDestroyedEntity) := by
  simp [destroy, h]

theorem zero_land_nat (m : Nat) : 0 &&& m = 0 := by
  apply Nat.eq_of_testBit_eq
  intro i
  rw [Nat.testBit_land]
  simp

theorem land_self_nat (n : Nat) : n &&& n = n := by
  apply Nat.eq_of_testBit_eq
  intro i
  rw [Nat.testBit_land]
  cases n.testBit i <;> rfl

theorem lor_self_nat (n : Nat) : n ||| n = n := by
  apply Nat.eq_of_testBit_eq
  intro i
  rw [Nat.testBit_lor]
  cases n.testBit i <;> rfl

theorem ldiff_self_nat (n : Nat) : Nat.ldiff n n = 0 := by
  apply Nat.eq_of_testBit_eq
  intro i
  rw [Nat.testBit_ldiff]
  cases n.testBit i <;> simp

/-! Concrete inputs used by witnesses and counterexamples. -/

/-- No initial data supplied: `addComponent(C)` with the default `{}`. -/
def noInit : String → Option (List Int) := fun _ => none

/-- A registered component type with bit 0 (bitmask 1) and a single
vector field "v" of length 2, defaulting to zeros. -/
def posC : CompType :=
  { id := 0, bitmask := some 1, fields := ["v"],
    schema := fun f =>
      if f = "v" then some { len := 2, default := [0, 0] } else none }

/-- A component type never registered: its `bitmask` is still `null`. -/
def unregC : CompType :=
  { id := 1, bitmask := none, fields := [], schema := fun _ => none }

/-- A fresh active entity at index 0 with an empty bitmask, and one backed
field buffer for `posC`'s "v" of capacity 2. -/
def baseWorld : World :=
  { ent := { bitmask := 0, active := true, index := 0 },
    buffers := fun i f =>
      if i = 0 ∧ f = "v" then
        some { ver := 0, cap := 2, data := fun _ => 0 }
      else none,
    views := fun _ _ => none,
    log := [] }

/-- `baseWorld` whose entity already holds `posC` (bit 0 set). -/
def holdsWorld : World :=
  { baseWorld with ent := { bitmask := 1, active := true, index := 0 } }

/-- `baseWorld` whose entity is already destroyed. -/
def deadWorld : World :=
  { baseWorld with ent := { bitmask := 0, active := false, index := 0 } }

/-- The world after a first `getVectorView` on `baseWorld`: the view
`⟨ver 0, offset 0, len 2⟩` is cached. -/
def c2w1 : World := (getVectorView baseWorld posC "v").1

/-- `c2w1` after the storage attaches `posC` for another entity at index
5, which grows the "v" buffer (capacity 2 → 12, version 0 → 1). -/
def c2w2 : World := attachComponentToEntity c2w1 5 posC noInit

/-- C1: counterexample — on a concrete active entity, `destroy` succeeds
with the event trace `[releaseEntityInstance 0, updateEntity 0 false]`, in
which no release occurs after an update notification: the index is handed
back to the pool before, not after, the query notification. -/
theorem C1_counterexample :
    (destroy baseWorld).2 = none ∧
    (destroy baseWorld).1.log =
      [Event.releaseEntityInstance 0, Event.updateEntity 0 false] ∧
    ¬ releaseAfterUpdate (destroy baseWorld).1.log := by
  exact ⟨rfl, rfl, by decide⟩

/-- C1 (amended): in every successful `destroy` call,
`releaseEntityInstance` is emitted exactly once and strictly before the
single `updateEntity` notification for the destruction (which observes the
cleared bitmask and the inactive flag). -/
theorem C1_release_before_notification (w : World)
    (hact : w.ent.active = true) :
    (destroy w).2 = none ∧
    (destroy w).1.log = w.log ++
      [Event.releaseEntityInstance w.ent.index,
       Event.updateEntity 0 false] := by
  simp [destroy, hact]

/-- C1 witness: the amended ordering instantiated on a concrete entity. -/
theorem C1_release_before_notification_witness :
    (destroy baseWorld).2 = none ∧
    (destroy baseWorld).1.log = baseWorld.log ++
      [Event.releaseEntityInstance baseWorld.ent.index,
       Event.updateEntity 0 false] :=
  C1_release_before_notification baseWorld rfl

/-- C2: counterexample — a view issued before growth (buffer version 0) is
returned again, identical and never refreshed, by the `getVectorView` call
after the backing buffer has grown to version 1: the call yields the stale
cached view over the old buffer, not a different view over the new one. -/
theorem C2_counterexample :
    (getVectorView baseWorld posC "v").2 = .ok ⟨0, 0, 2⟩ ∧
    Option.map Buffer.ver (c2w2.buffers 0 "v") = some 1 ∧
    (getVectorView c2w2 posC "v").2 = .ok ⟨0, 0, 2⟩ :=
  ⟨rfl, rfl, rfl⟩

/-- C2 (amended): repeated `getVectorView` calls return the identical
cached view instance, and they do so unconditionally — whenever a cached
view exists it is returned with no validity check and no state change, so
after a buffer growth the previously issued stale view is still returned
instead of a fresh view over the new buffer. -/
theorem C2_vector_view_cache (w : World) (C : CompType) (f : String) :
    (∀ v : View, w.views C.id f = some v → getVectorView w C f = (w, .ok v)) ∧
    (∀ v : View, (getVectorView w C f).2 = .ok v →
      (getVectorView (getVectorView w C f).1 C f).2 = .ok v) := by
  constructor
  · intro v hv
    simp [getVectorView, hv]
  · intro v hv
    cases hw : w.views C.id f with
    | some v0 =>
      simp [getVectorView, hw] at hv ⊢
      exact hv
    | none =>
      cases hs : C.schema f with
      | none => simp [getVectorView, hw, hs] at hv
      | some d =>
        cases hb : w.buffers C.id f with
        | none => simp [getVectorView, hw, hs, hb] at hv
        | some b =>
          simp [getVectorView, hw, hs, hb] at hv
          simp [getVectorView, hw, hs, hb, upd2, ← hv]

/-- C2 witness: on the concrete post-growth world the cached stale view is
returned unchanged. -/
theorem C2_vector_view_cache_witness :
    getVectorView c2w2 posC "v" = (c2w2, .ok ⟨0, 0, 2⟩) :=
  (C2_vector_view_cache c2w2 posC "v").1 ⟨0, 0, 2⟩ rfl

/-- C3: counterexample — on an active entity that already holds `posC`
(bitmask 1), `addComponent` then `removeComponent` both succeed but leave
the bitmask at 0, not at its pre-add value 1. -/
theorem C3_counterexample :
    holdsWorld.ent.active = true ∧
    holdsWorld.ent.bitmask = 1 ∧
    posC.bitmask = some 1 ∧
    (addComponent holdsWorld posC noInit).2 = none ∧
    (removeComponent (addComponent holdsWorld posC noInit).1 posC).2 =
      none ∧
    (removeComponent (addComponent holdsWorld posC noInit).1 posC).1.ent.bitmask
      = 0 := by
  refine ⟨rfl, rfl, rfl, rfl, rfl, ?_⟩
  show Nat.ldiff (1 ||| 1) 1 = 0
  rw [lor_self_nat, ldiff_self_nat]

/-- C3 (amended): `addComponent(C)` then `removeComponent(C)` on an active
entity with C registered sets the bitmask to the pre-add value with C's
bits cleared; in particular the pre-add bitmask is restored exactly when
the entity did not already hold any bit of C. -/
theorem C3_add_remove_bitmask (w : World) (C : CompType) (m : Nat)
    (init : String → Option (List Int))
    (hact : w.ent.active = true) (hm : C.bitmask = some m) :
    (removeComponent (addComponent w C init).1 C).2 = none ∧
    (removeComponent (addComponent w C init).1 C).1.ent.bitmask =
      Nat.ldiff w.ent.bitmask m ∧
    (w.ent.bitmask &&& m = 0 →
      (removeComponent (addComponent w C init).1 C).1.ent.bitmask =
        w.ent.bitmask) := by
  obtain ⟨_, hbm, hac, _, _, _⟩ := addComponent_ok w C m init hact hm
  rw [hact] at hac
  refine ⟨?_, ?_, ?_⟩
  · simp [removeComponent, hac, hm]
  · simp [removeComponent, hac, hm, hbm, ldiff_lor_self]
  · intro hz
    simp [removeComponent, hac, hm, hbm, ldiff_lor_self,
      ldiff_eq_self_of_land_eq_zero hz]

/-- C3 witness: the amended statement on a concrete entity that does not
yet hold the component: the bitmask is restored to 0. -/
theorem C3_add_remove_bitmask_witness :
    (removeComponent (addComponent baseWorld posC noInit).1 posC).2 =
      none ∧
    (removeComponent (addComponent baseWorld posC noInit).1 posC).1.ent.bitmask
      = baseWorld.ent.bitmask :=
  ⟨(C3_add_remove_bitmask baseWorld posC 1 noInit rfl rfl).1,
   (C3_add_remove_bitmask baseWorld posC 1 noInit rfl rfl).2.2 rfl⟩

/-- C4: every mutating call validates its preconditions before performing
any mutation — whenever `addComponent`, `removeComponent` or `destroy`
returns an error, the resulting world is exactly the input world: bitmask,
active flag, component storage, view cache and notification log are all
untouched. -/
theorem C4_error_atomicity (w : World) (C : CompType)
    (init : String → Option (List Int)) :
    ((addComponent w C init).2.isSome → (addComponent w C init).1 = w) ∧
    ((removeComponent w C).2.isSome → (removeComponent w C).1 = w) ∧
    ((destroy w).2.isSome → (destroy w).1 = w) := by
  refine ⟨?_, ?_, ?_⟩
  · intro h
    cases ha : w.ent.active with
    | false => simp [addComponent, ha]
    | true =>
      cases hm : C.bitmask with
      | none => simp [addComponent, ha, hm]
      | some m => simp [addComponent, ha, hm] at h
  · intro h
    cases ha : w.ent.active with
    | false => simp [removeComponent, ha]
    | true =>
      cases hm : C.bitmask with
      | none => simp [removeComponent, ha, hm]
      | some m => simp [removeComponent, ha, hm] at h
  · intro h
    cases ha : w.ent.active with
    | false => simp [destroy, ha]
    | true => simp [destroy, ha] at h

/-- C4 witness: on a concrete destroyed entity all three mutating calls
fail and return the world unchanged. -/
theorem C4_error_atomicity_witness :
    (addComponent deadWorld posC noInit).2.isSome = true ∧
    (addComponent deadWorld posC noInit).1 = deadWorld ∧
    (removeComponent deadWorld posC).1 = deadWorld ∧
    (destroy deadWorld).1 = deadWorld :=
  ⟨rfl,
   (C4_error_atomicity deadWorld posC noInit).1 rfl,
   (C4_error_atomicity deadWorld posC noInit).2.1 rfl,
   (C4_error_atomicity deadWorld posC noInit).2.2 rfl⟩

/-- C5: after a successful `destroy`, `hasComponent` is false for every
registered component type, and every further `addComponent`,
`removeComponent` or `destroy` call on the same handle fails, leaving the
state unchanged, with the `ModifyDestroyedEntity` error whose literal
message is "Cannot modify a destroyed entity". -/
theorem C5_destroyed_handle (w : World) (hact : w.ent.active = true) :
    (destroy w).2 = none ∧
    (∀ (C : CompType) (m : Nat), C.bitmask = some m →
      hasComponent (destroy w).1 C = .ok false) ∧
    (∀ (C : CompType) (init : String → Option (List Int)),
      addComponent (destroy w).1 C init =
        ((destroy w).1, some Err.modifyDestroyedEntity)) ∧
    (∀ C : CompType, removeComponent (destroy w).1 C =
      ((destroy w).1, some Err.modifyDestroyedEntity)) ∧
    destroy (destroy w).1 = ((destroy w).1, some Err.modifyDestroyedEntity) ∧
    Err.message Err.modifyDestroyedEntity =
      "Cannot modify a destroyed entity" := by
  have d1 : (destroy w).1.ent.active = false := by simp [destroy, hact]
  have d0 : (destroy w).1.ent.bitmask = 0 := by simp [destroy, hact]
  refine ⟨by simp [destroy, hact], ?_, ?_, ?_, ?_, rfl⟩
  · intro C m hm
    simp [hasComponent, hm, d0, zero_land_nat]
  · intro C init
    exact addComponent_inactive _ C init d1
  · intro C
    exact removeComponent_inactive _ C d1
  · exact destroy_inactive _ d1

/-- C5 witness: the destroyed-handle behavior on a concrete entity and a
concrete registered component type. -/
theorem C5_destroyed_handle_witness :
    (destroy baseWorld).2 = none ∧
    hasComponent (destroy baseWorld).1 posC = .ok false ∧
    addComponent (destroy baseWorld).1 posC noInit =
      ((destroy baseWorld).1, some Err.modifyDestroyedEntity) ∧
    removeComponent (destroy baseWorld).1 posC =
      ((destroy baseWorld).1, some Err.modifyDestroyedEntity) ∧
    destroy (destroy baseWorld).1 =
      ((destroy baseWorld).1, some Err.modifyDestroyedEntity) ∧
    Err.message Err.modifyDestroyedEntity =
      "Cannot modify a destroyed entity" :=
  have h := C5_destroyed_handle baseWorld rfl
  ⟨h.1, h.2.1 posC 1 rfl, h.2.2.1 posC noInit, h.2.2.2.1 posC,
   h.2.2.2.2.1, h.2.2.2.2.2⟩

/-- C6: every successful mutating call appends exactly one `updateEntity`
notification to the log, and that notification records the post-mutation
bitmask and active flag of the entity — the query subsystem always
observes post-mutation state. -/
theorem C6_single_notification (w : World) (C : CompType)
    (init : String → Option (List Int)) :
    ((addComponent w C init).2 = none →
      (addComponent w C init).1.log =
        w.log ++ [Event.updateEntity (addComponent w C init).1.ent.bitmask
          (addComponent w C init).1.ent.active]) ∧
    ((removeComponent w C).2 = none →
      (removeComponent w C).1.log =
        w.log ++ [Event.updateEntity (removeComponent w C).1.ent.bitmask
          (removeComponent w C).1.ent.active]) ∧
    ((destroy w).2 = none →
      (destroy w).1.log =
        w.log ++ [Event.releaseEntityInstance w.ent.index,
          Event.updateEntity (destroy w).1.ent.bitmask
            (destroy w).1.ent.active]) := by
  refine ⟨?_, ?_, ?_⟩
  · intro h
    cases ha : w.ent.active with
    | false => simp [addComponent, ha] at h
    | true =>
      cases hm : C.bitmask with
      | none => simp [addComponent, ha, hm] at h
      | some m =>
        simp [addComponent, ha, hm, attach_ent, attach_views, attach_log]
  · intro h
    cases ha : w.ent.active with
    | false => simp [removeComponent, ha] at h
    | true =>
      cases hm : C.bitmask with
      | none => simp [removeComponent, ha, hm] at h
      | some m => simp [removeComponent, ha, hm]
  · intro h
    cases ha : w.ent.active with
    | false => simp [destroy, ha] at h
    | true => simp [destroy, ha]

/-- C6 witness: the three notification equations on concrete successful
calls. -/
theorem C6_single_notification_witness :
    (addComponent baseWorld posC noInit).1.log =
      baseWorld.log ++
        [Event.updateEntity (addComponent baseWorld posC noInit).1.ent.bitmask
          (addComponent baseWorld posC noInit).1.ent.active] ∧
    (removeComponent baseWorld posC).1.log =
      baseWorld.log ++
        [Event.updateEntity (removeComponent baseWorld posC).1.ent.bitmask
          (removeComponent baseWorld posC).1.ent.active] ∧
    (destroy baseWorld).1.log =
      baseWorld.log ++
        [Event.releaseEntityInstance baseWorld.ent.index,
          Event.updateEntity (destroy baseWorld).1.ent.bitmask
            (destroy baseWorld).1.ent.active] :=
  ⟨(C6_single_notification baseWorld posC noInit).1 rfl,
   (C6_single_notification baseWorld posC noInit).2.1 rfl,
   (C6_single_notification baseWorld posC noInit).2.2 rfl⟩

/-- C7: for any entity state (hence after any add/remove sequence) and any
registered component type, `hasComponent` returns true iff the
intersection of the entity bitmask with the type's bitmask is non-empty;
for an unregistered type it throws the error whose literal message is
"Component type not registered". -/
theorem C7_hasComponent_iff (w : World) (C : CompType) :
    (∀ m : Nat, C.bitmask = some m →
      (hasComponent w C = .ok true ↔ w.ent.bitmask &&& m ≠ 0)) ∧
    (C.bitmask = none →
      hasComponent w C = .error Err.componentTypeNotRegistered) ∧
    Err.message Err.componentTypeNotRegistered =
      "Component type not registered" := by
  refine ⟨?_, ?_, rfl⟩
  · intro m hm
    simp [hasComponent, hm]
  · intro hm
    simp [hasComponent, hm]

/-- C7 witness: on a concrete entity holding bit 0, `hasComponent` is true
for the registered type with bitmask 1 and throws for an unregistered
type. -/
theorem C7_hasComponent_iff_witness :
    hasComponent holdsWorld posC = .ok true ∧
    hasComponent holdsWorld unregC = .error Err.componentTypeNotRegistered :=
  ⟨((C7_hasComponent_iff holdsWorld posC).1 1 rfl).mpr
      (by show (1 : Nat) &&& 1 ≠ 0; rw [land_self_nat]; decide),
   (C7_hasComponent_iff holdsWorld unregC).2.1 rfl⟩

/-- C8: `setValue(C, f, v)` followed by `getValue(C, f)` on the same
entity returns `v`, for any backed field and any entity slot within the
buffer's capacity (the data-model invariant keeps every live entity index
within capacity). -/
theorem C8_set_get_roundtrip (w : World) (C : CompType) (f : String)
    (v : Int) (b : Buffer) (hb : w.buffers C.id f = some b)
    (hcap : w.ent.index < b.cap) :
    (setValue w C f v).2 = none ∧
    getValue (setValue w C f v).1 C f = some v := by
  constructor
  · simp [setValue, hb]
  · simp [setValue, getValue, hb, upd2, hcap]

/-- C8 witness: writing 7 then reading it back on a concrete entity. -/
theorem C8_set_get_roundtrip_witness :
    (setValue baseWorld posC "v" 7).2 = none ∧
    getValue (setValue baseWorld posC "v" 7).1 posC "v" = some 7 :=
  C8_set_get_roundtrip baseWorld posC "v" 7
    { ver := 0, cap := 2, data := fun _ => 0 } rfl (by decide)

/-- C9: a successful `removeComponent` clears the type's bits from the
bitmask and appends the single query notification, while the component
storage, the view cache, the active flag and the index are left
untouched — stored field values are not erased. -/
theorem C9_remove_frame (w : World) (C : CompType) (m : Nat)
    (hact : w.ent.active = true) (hm : C.bitmask = some m) :
    (removeComponent w C).2 = none ∧
    (removeComponent w C).1.ent.bitmask = Nat.ldiff w.ent.bitmask m ∧
    (removeComponent w C).1.ent.active = w.ent.active ∧
    (removeComponent w C).1.ent.index = w.ent.index ∧
    (removeComponent w C).1.buffers = w.buffers ∧
    (removeComponent w C).1.views = w.views ∧
    (removeComponent w C).1.log = w.log ++
      [Event.updateEntity (Nat.ldiff w.ent.bitmask m) w.ent.active] := by
  simp [removeComponent, hact, hm]

/-- C9 witness: the frame condition on a concrete entity holding the
component. -/
theorem C9_remove_frame_witness :
    (removeComponent holdsWorld posC).2 = none ∧
    (removeComponent holdsWorld posC).1.ent.bitmask =
      Nat.ldiff holdsWorld.ent.bitmask 1 ∧
    (removeComponent holdsWorld posC).1.ent.active =
      holdsWorld.ent.active ∧
    (removeComponent holdsWorld posC).1.ent.index =
      holdsWorld.ent.index ∧
    (removeComponent holdsWorld posC).1.buffers = holdsWorld.buffers ∧
    (removeComponent holdsWorld posC).1.views = holdsWorld.views ∧
    (removeComponent holdsWorld posC).1.log = holdsWorld.log ++
      [Event.updateEntity (Nat.ldiff holdsWorld.ent.bitmask 1)
        holdsWorld.ent.active] :=
  C9_remove_frame holdsWorld posC 1 rfl rfl

theorem getVectorView_setActive (w : World) (C : CompType) (f : String)
    (b : Bool) :
    getVectorView (setActive w b) C f =
      (setActive (getVectorView w C f).1 b, (getVectorView w C f).2) := by
  cases hv : w.views C.id f with
  | some v => simp [getVectorView, setActive, hv]
  | none =>
    cases hs : C.schema f with
    | none => simp [getVectorView, setActive, hv, hs]
    | some d =>
      cases hb : w.buffers C.id f with
      | none => simp [getVectorView, setActive, hv, hs, hb]
      | some bf => simp [getVectorView, setActive, hv, hs, hb]

theorem setValue_setActive (w : World) (C : CompType) (f : String)
    (v : Int) (b : Bool) :
    setValue (setActive w b) C f v =
      (setActive (setValue w C f v).1 b, (setValue w C f v).2) := by
  cases hb2 : w.buffers C.id f with
  | none => simp [setValue, setActive, hb2]
  | some bf => simp [setValue, setActive, hb2]

/-- C10: none of `hasComponent`, `getValue`, `setValue`, `getVectorView`
consults the active flag — each behaves on a handle with any active flag
(in particular a destroyed one) exactly as on the active handle with the
same bitmask, index, storage and cache, still reading and writing the
buffers at the handle's index — and no operation ever raises an error
whose message is the `ERRORS.ACCESS_DESTROYED_ENTITY` string
"Cannot access a destroyed entity". -/
theorem C10_access_ignores_active (w : World) (C : CompType) (f : String)
    (v : Int) (b : Bool) :
    hasComponent (setActive w b) C = hasComponent w C ∧
    getValue (setActive w b) C f = getValue w C f ∧
    setValue (setActive w b) C f v =
      (setActive (setValue w C f v).1 b, (setValue w C f v).2) ∧
    getVectorView (setActive w b) C f =
      (setActive (getVectorView w C f).1 b, (getVectorView w C f).2) ∧
    (∀ e : Err, Err.message e ≠ ACCESS_DESTROYED_ENTITY) := by
  refine ⟨?_, ?_, setValue_setActive w C f v b,
    getVectorView_setActive w C f b, ?_⟩
  · cases hm : C.bitmask with
    | none => simp [hasComponent, setActive, hm]
    | some m => simp [hasComponent, setActive, hm]
  · cases hb2 : w.buffers C.id f with
    | none => simp [getValue, setActive, hb2]
    | some bf => simp [getValue, setActive, hb2]
  · intro e
    cases e <;> simp [Err.message, ACCESS_DESTROYED_ENTITY]

end Elics
